import Mathlib

/-!
Verification of the GPflow documentation-notebook repository.

The repository holds two Jupyter notebooks:
  * `doc/source/notebooks/advanced/monitoring.ipynb` — demonstrates
    `gpflow.training.monitor`; it defines one original class,
    `CustomTensorBoardTask`, whose `run` method batches test predictions.
  * a "tips & tricks" notebook (the unnamed file) — usage snippets over the
    GPflow / TensorFlow API surface, including one `assert` on parameter
    sharing and a save/load example.

We embed the genuine computational logic (the `run` method's minibatch loop,
Python's floor division and slicing) faithfully, and we model the notebooks'
syntactic inventories (defined classes, side effects, assert statements,
persistence calls, shown diagnostic messages, file kinds) as explicit data
extracted from the notebook documents, so that the spec's global claims about
the repository's content can be settled.
-/

namespace GPflowNotebooks

/-! ## Python arithmetic and slicing, as used in `CustomTensorBoardTask.run` -/

/-- Python's `//` on integers is floor division (rounds toward `-∞`),
which is `Int.fdiv`. -/
def pyFloorDiv (a b : Int) : Int := Int.fdiv a b

/-- Python's `xs[a:b]` for a list and non-negative bounds: elements from
index `a` (inclusive) to `b` (exclusive), clamped to the list's length. -/
def pySlice {α : Type} (xs : List α) (a b : Nat) : List α :=
  (xs.take b).drop a

/-- The minibatch size hard-coded at the top of `CustomTensorBoardTask.run`:
`minibatch_size = 100`. -/
def minibatch_size : Nat := 100

/-- The loop bound `-(-len(Xt) // minibatch_size)` of the prediction loop in
`CustomTensorBoardTask.run`, with Python's floor-division semantics. -/
def numBatches (n : Nat) : Int :=
  -(pyFloorDiv (-(n : Int)) (minibatch_size : Int))

/-- A data row: the notebooks use rank-2 arrays (`10000 × 1`), so a row is a
list of rationals and an array is a list of rows. -/
abbrev Row := List ℚ

/-- The stacked predictions of `CustomTensorBoardTask.run`:
`np.vstack([model.predict_y(Xt[mb*minibatch_size:(mb+1)*minibatch_size, :])[0]
for mb in range(-(-len(Xt) // minibatch_size))])`.
`predict_y` abstracts the external model's mean-prediction on a batch. -/
def predsOf (predict_y : List Row → List Row) (Xt : List Row) : List Row :=
  ((List.range (numBatches Xt.length).toNat).map
    (fun mb => predict_y
      (pySlice Xt (mb * minibatch_size) ((mb + 1) * minibatch_size)))).flatten

/-- Elementwise difference of two equal-shape rank-2 arrays (`Yt - preds`). -/
def matSub (A B : List Row) : List Row :=
  List.zipWith (List.zipWith (fun a b => a - b)) A B

/-- Elementwise square of a rank-2 array (`(...) ** 2.0`). -/
def matSq (A : List Row) : List Row :=
  A.map (fun r => r.map (fun x => x * x))

/-- `np.mean` over all elements of a rank-2 array. -/
def matMean (A : List Row) : ℚ :=
  (A.map (fun r => r.sum)).sum / ((A.map (fun r => r.length)).sum : ℚ)

/-- The pair of values `CustomTensorBoardTask.run` feeds to the two summary
placeholders `self._full_test_err` and `self._full_test_nlpp`. -/
structure SummaryFeed where
  test_rmse : ℚ
  test_nlpp : ℚ
  deriving DecidableEq, Repr

/-- The body of `CustomTensorBoardTask.run`: slice the test set into
minibatches of 100, stack the model's predictions, compute
`test_err = np.mean((Yt - preds) ** 2.0) ** 0.5`, and feed the summary with
`test_err` for `self._full_test_err` and the literal `0.0` for
`self._full_test_nlpp`. `sqrtF` abstracts the floating-point `** 0.5`;
`predict_y` abstracts the external model's prediction on a batch. -/
def CustomTensorBoardTask.run (sqrtF : ℚ → ℚ) (predict_y : List Row → List Row)
    (Xt Yt : List Row) : SummaryFeed :=
  let preds := predsOf predict_y Xt
  let test_err := sqrtF (matMean (matSq (matSub Yt preds)))
  { test_rmse := test_err, test_nlpp := 0 }

/-- A small concrete test array (three rows) used to witness the minibatch
coverage theorem. -/
def Xt₀ : List Row := [[1], [2], [3]]

/-! ## Syntactic inventories of the two notebook documents

The remaining claims are about what the notebooks as documents contain and
what executing them does. We extract the relevant inventories from the two
notebook files as explicit data: every entry corresponds to an identifiable
cell or statement of a notebook. -/

/-- Where a class referenced by notebook code is defined. -/
inductive ClassOrigin
  | library
  | notebook
  deriving DecidableEq, Repr

/-- A class referenced by notebook code, with the place it is defined. -/
structure ClassRef where
  name : String
  origin : ClassOrigin
  deriving DecidableEq, Repr

/-- Classes referenced by the code cells of `monitoring.ipynb`. All are
imported from `gpflow`, `gpflow.training.monitor` or `tensorflow`, except
`CustomTensorBoardTask`, which the notebook itself defines (the
`class CustomTensorBoardTask(mon.BaseTensorBoardTask):` cell). -/
def monitoringClassRefs : List ClassRef :=
  [⟨"PrintTimingsTask", .library⟩,
   ⟨"SleepTask", .library⟩,
   ⟨"CheckpointTask", .library⟩,
   ⟨"LogdirWriter", .library⟩,
   ⟨"ModelToTensorBoardTask", .library⟩,
   ⟨"LmlToTensorBoardTask", .library⟩,
   ⟨"PeriodicIterationCondition", .library⟩,
   ⟨"BaseTensorBoardTask", .library⟩,
   ⟨"Monitor", .library⟩,
   ⟨"MonitorContext", .library⟩,
   ⟨"SVGP", .library⟩,
   ⟨"RBF", .library⟩,
   ⟨"Gaussian", .library⟩,
   ⟨"AdamOptimizer", .library⟩,
   ⟨"ScipyOptimizer", .library⟩,
   ⟨"CustomTensorBoardTask", .notebook⟩]

/-- Classes referenced by the code cells of the tips-and-tricks notebook.
All come from `gpflow`, `tensorflow` or the Python standard library. -/
def tipsClassRefs : List ClassRef :=
  [⟨"RBF", .library⟩,
   ⟨"GPR", .library⟩,
   ⟨"SVGP", .library⟩,
   ⟨"Gaussian", .library⟩,
   ⟨"SeparateMixedMok", .library⟩,
   ⟨"AdamOptimizer", .library⟩,
   ⟨"Saver", .library⟩,
   ⟨"SaverContext", .library⟩,
   ⟨"Path", .library⟩,
   ⟨"Graph", .library⟩,
   ⟨"Session", .library⟩,
   ⟨"Variable", .library⟩]

/-- All class references of both notebooks. -/
def allClassRefs : List ClassRef := monitoringClassRefs ++ tipsClassRefs

/-- Classes introduced by a `class ... :` statement inside a notebook code
cell (rather than imported). `monitoring.ipynb` defines exactly one,
`CustomTensorBoardTask`; the tips-and-tricks notebook defines none. -/
def notebookDefinedClasses : List String := ["CustomTensorBoardTask"]

/-- An externally visible effect of executing a notebook cell. -/
inductive Effect
  | cellOutput (text : String)
  | fileWrite (path : String)
  | fileDelete (path : String)
  deriving DecidableEq, Repr

/-- Whether an effect is mere notebook cell output. -/
def Effect.isCellOutput : Effect → Bool
  | .cellOutput _ => true
  | _ => false

/-- Externally visible effects of executing `monitoring.ipynb`, in cell
order: printed log-likelihoods and timing lines, but also checkpoint files
written under `./monitor-saves` by `mon.CheckpointTask` and TensorBoard
event files written under `./model-tensorboard` by `mon.LogdirWriter`. -/
def monitoringEffects : List Effect :=
  [.cellOutput "LML before the optimisation: -1271605.621944",
   .fileWrite "./monitor-saves",
   .fileWrite "./model-tensorboard",
   .cellOutput "Iteration 10 total itr.rate 12.02/s ... opt.step 10 ...",
   .cellOutput "Tasks execution time summary: print 0.0385 (sec) ...",
   .cellOutput "LML after the optimisation: -68705.124191",
   .cellOutput "INFO:tensorflow:Optimization terminated with: Message: CONVERGENCE: REL_REDUCTION_OF_F_<=_FACTR*EPSMCH",
   .cellOutput "Iteration 5 total itr.rate 5.46/s ..."]

/-- Externally visible effects of executing the tips-and-tricks notebook, in
cell order: printed log-likelihood and parameter values, and the save/load
example, which unlinks any pre-existing `/tmp/gpr.gpflow` and then writes it
through `gpflow.saver.Saver().save`. -/
def tipsEffects : List Effect :=
  [.cellOutput "-2.8766930392437593",
   .cellOutput "-140.83017563045192",
   .cellOutput "-196.46001677717464",
   .cellOutput "-193.12198293763578",
   .cellOutput "array(1.)",
   .cellOutput "1.0006322362558255",
   .cellOutput "array(1.00063224)",
   .fileDelete "/tmp/gpr.gpflow",
   .fileWrite "/tmp/gpr.gpflow"]

/-- Effects of executing both notebooks. -/
def allEffects : List Effect := monitoringEffects ++ tipsEffects

/-- An `assert` statement appearing in a notebook code cell. -/
structure AssertStmt where
  notebook : String
  condition : String
  deriving DecidableEq, Repr

/-- The `assert` statements of both notebooks: a single one, in the
parameter-sharing example of the tips-and-tricks notebook. -/
def notebookAsserts : List AssertStmt :=
  [⟨"tips-and-tricks",
    "mo_kernels.kernels[0].lengthscales is mo_kernels.kernels[1].lengthscales"⟩]

/-! ## Parameter sharing in the tips-and-tricks notebook (section 4) -/

/-- A Python object identity: `a is b` holds exactly when the two
references carry the same object id. -/
abbrev ObjId := Nat

/-- The lengthscales references of the three kernels built by
`kernels = [gpflow.kernels.RBF(1) for _ in range(3)]`: three separate `RBF`
objects, hence three distinct lengthscales parameter objects. -/
def initLengthscales : Fin 3 → ObjId := fun i => i.val

/-- The aliasing assignment
`mo_kernels.kernels[0].lengthscales = mo_kernels.kernels[1].lengthscales`,
executed inside the `defer_build` block: kernel 0's attribute is rebound to
the very object kernel 1 references. -/
def assignShared (ls : Fin 3 → ObjId) : Fin 3 → ObjId :=
  fun i => if i = 0 then ls 1 else ls i

/-- Modelled from the spec: `mo_kernels.compile()` is library code absent
from this repository. Per the notebook's narration (sharing must be imposed
"at build time" and then compiled manually, precisely so that the shared
object survives), compiling a deferred-build object builds its tensors
without replacing the Python parameter objects its kernels reference, so the
reference table is unchanged. -/
def compileKernels (ls : Fin 3 → ObjId) : Fin 3 → ObjId := ls

/-! ## Diagnostic messages shown in the notebooks -/

/-- A message visible in a notebook output cell: its text, whether it is an
error/diagnostic message (as opposed to a printed result), and whether it is
emitted by the external library or runtime rather than by code authored in
the notebook. -/
structure ShownMessage where
  text : String
  isDiagnostic : Bool
  fromLibrary : Bool
  deriving DecidableEq, Repr

/-- The messages shown in the output cells of both notebooks. The printed
log-likelihood results come from notebook `print` calls; every timing line,
progress bar, task summary and convergence report is emitted by
`gpflow.training.monitor`, `tqdm` or TensorFlow. -/
def shownMessages : List ShownMessage :=
  [⟨"LML before the optimisation: -1271605.621944", false, false⟩,
   ⟨"Iteration 10 total itr.rate 12.02/s ...", true, true⟩,
   ⟨"0%| | 0/100 [00:00<?, ?it/s]", true, true⟩,
   ⟨"Tasks execution time summary: ...", true, true⟩,
   ⟨"LML after the optimisation: -68705.124191", false, false⟩,
   ⟨"INFO:tensorflow:Optimization terminated with: Message: CONVERGENCE: REL_REDUCTION_OF_F_<=_FACTR*EPSMCH", true, true⟩,
   ⟨"-2.8766930392437593", false, false⟩,
   ⟨"-140.83017563045192", false, false⟩]

/-- Python `try`/`except` blocks authored in notebook code cells: none. -/
def tryExceptBlocks : List String := []

/-- Python `raise` statements authored in notebook code cells: none. -/
def raiseStmts : List String := []

/-- Retry loops authored in notebook code cells: none. -/
def retryLoops : List String := []

/-! ## Persistence calls in the notebooks -/

/-- A save/load/restore call appearing in a notebook, with its target path
and the library component whose format it uses. -/
structure PersistCall where
  operation : String
  target : String
  component : String
  deriving DecidableEq, Repr

/-- Every persistence call of the two notebooks: checkpoints and TensorBoard
events in `monitoring.ipynb`, and the `Saver` save/load example of the
tips-and-tricks notebook. Each goes through a `gpflow` library component. -/
def persistCalls : List PersistCall :=
  [⟨"checkpoint", "./monitor-saves", "gpflow.training.monitor.CheckpointTask"⟩,
   ⟨"eventLog", "./model-tensorboard", "gpflow.training.monitor.LogdirWriter"⟩,
   ⟨"restore", "./monitor-saves", "gpflow.training.monitor.restore_session"⟩,
   ⟨"save", "/tmp/gpr.gpflow", "gpflow.saver.Saver.save"⟩,
   ⟨"load", "/tmp/gpr.gpflow", "gpflow.saver.Saver.load"⟩,
   ⟨"loadSameGraph", "/tmp/gpr.gpflow", "gpflow.saver.Saver.load"⟩]

/-- The library components the notebooks' persistence calls go through: all
live in the external `gpflow` package. -/
def gpflowComponents : List String :=
  ["gpflow.training.monitor.CheckpointTask",
   "gpflow.training.monitor.LogdirWriter",
   "gpflow.training.monitor.restore_session",
   "gpflow.saver.Saver.save",
   "gpflow.saver.Saver.load"]

/-- File or wire formats defined by notebook code itself: none. -/
def notebookDefinedFormats : List String := []

/-! ## Monitor invocations and repository files -/

/-- A use of the monitor object in an optimisation call, with the keyword
argument it is passed as. -/
structure MonitorUse where
  callee : String
  passedAs : String
  deriving DecidableEq, Repr

/-- The monitor is invoked in exactly two places in `monitoring.ipynb`, both
times handed to the external optimiser as its `step_callback` argument. -/
def monitorUses : List MonitorUse :=
  [⟨"AdamOptimizer.minimize", "step_callback"⟩,
   ⟨"ScipyOptimizer.minimize", "step_callback"⟩]

/-- Concurrency constructs (threads, locks, cancellation tokens) authored in
notebook code cells: none. -/
def concurrencyConstructs : List String := []

/-- A file of the repository, with the artifact kind observable from its
content: whether it is an nbformat notebook document (and its major
`nbformat` version) and whether it is a plain Python module or script. -/
structure RepoFile where
  path : String
  isNotebookDocument : Bool
  nbformatMajor : Nat
  isPythonModule : Bool
  deriving DecidableEq, Repr

/-- The repository's two source files. Both are nbformat-4 notebook
documents (`"nbformat": 4` in their trailing metadata). -/
def repoFiles : List RepoFile :=
  [⟨"doc/source/notebooks/advanced/monitoring.ipynb", true, 4, false⟩,
   ⟨"tips-and-tricks notebook (file of unnamed path)", true, 4, false⟩]

/-! ## Lemmas about the minibatch loop -/

/-- The slice `xs[i*m:(i+1)*m]` is `take m` of `drop (i*m)`. -/
lemma pySlice_block {α : Type} (xs : List α) (m i : Nat) :
    pySlice xs (i * m) ((i + 1) * m) = (xs.drop (i * m)).take m := by
  unfold pySlice
  rw [List.drop_take]
  congr 1
  rw [Nat.add_mul]
  omega

/-- Concatenating the `k` consecutive `m`-blocks of `xs` yields the first
`k*m` elements of `xs`. -/
lemma join_blocks {α : Type} (xs : List α) (m k : Nat) :
    ((List.range k).map (fun i => pySlice xs (i * m) ((i + 1) * m))).flatten
      = xs.take (k * m) := by
  induction k with
  | zero => simp
  | succ k ih =>
    rw [List.range_succ, List.map_append, List.flatten_append, ih]
    simp only [List.map_cons, List.map_nil, List.flatten_cons, List.flatten_nil,
      List.append_nil, pySlice_block]
    rw [Nat.succ_mul, List.take_add]

/-- `numBatches n` equals the ceiling `(n + 99) / 100` (natural division). -/
lemma numBatches_eq (n : Nat) : numBatches n = (((n + 99) / 100 : Nat) : Int) := by
  unfold numBatches pyFloorDiv minibatch_size
  rw [Int.fdiv_eq_ediv _ (by norm_num)]
  omega

/-- `numBatches n` is the ceiling of `n / 100` as a rational. -/
lemma numBatches_eq_ceil (n : Nat) : numBatches n = ⌈(n : ℚ) / 100⌉ := by
  rw [numBatches_eq, eq_comm, Int.ceil_eq_iff]
  have h1 : n ≤ 100 * ((n + 99) / 100) := by omega
  have h2 : 100 * ((n + 99) / 100) < n + 100 := by omega
  have h1q : (n : ℚ) ≤ 100 * (((n + 99) / 100 : Nat) : ℚ) := by exact_mod_cast h1
  have h2q : (100 : ℚ) * (((n + 99) / 100 : Nat) : ℚ) < (n : ℚ) + 100 := by
    exact_mod_cast h2
  constructor
  · rw [lt_div_iff₀ (by norm_num : (0:ℚ) < 100), Int.cast_natCast]
    linarith
  · rw [div_le_iff₀ (by norm_num : (0:ℚ) < 100), Int.cast_natCast]
    linarith

/-- The loop bound, as a natural number of iterations. -/
lemma numBatches_toNat (n : Nat) : (numBatches n).toNat = (n + 99) / 100 := by
  rw [numBatches_eq, Int.toNat_natCast]

/-- The minibatch slices taken by the loop in `CustomTensorBoardTask.run`
concatenate back to the whole test array: no row is skipped and none is
taken twice. -/
lemma slices_partition (Xt : List Row) :
    ((List.range (numBatches Xt.length).toNat).map
      (fun mb => pySlice Xt (mb * minibatch_size) ((mb + 1) * minibatch_size))).flatten
      = Xt := by
  rw [join_blocks, numBatches_toNat]
  apply List.take_of_length_le
  have : minibatch_size = 100 := rfl
  rw [this]
  omega

/-- When the model predicts one row per test row (`predict_y` acts row-wise,
as the external model does), the stacked predictions are exactly the row-wise
predictions of the whole test array. -/
lemma predsOf_rowwise (g : Row → Row) (Xt : List Row) :
    predsOf (List.map g) Xt = Xt.map g := by
  unfold predsOf
  conv_rhs => rw [← slices_partition Xt]
  rw [List.map_flatten, List.map_map]
  rfl

/-! ## Claim theorems -/

/-- C1, counterexample: the claim that the notebooks define no original
class is false — `monitoring.ipynb` itself defines `CustomTensorBoardTask`
(it is referenced with notebook origin, and the defined-class inventory is
non-empty), so not every referenced class is imported from the library. -/
theorem notebook_defines_original_class :
    ClassRef.mk "CustomTensorBoardTask" ClassOrigin.notebook ∈ allClassRefs
    ∧ notebookDefinedClasses ≠ []
    ∧ (allClassRefs.all (fun c => c.origin == ClassOrigin.library)) = false := by
  decide

/-- C1, amended: the notebooks define exactly one original class,
`CustomTensorBoardTask` (whose `run` method carries the only original
logic); every other class they reference is imported from the external
libraries. -/
theorem only_original_class_is_custom_task :
    notebookDefinedClasses = ["CustomTensorBoardTask"]
    ∧ (allClassRefs.all (fun c => c.origin == ClassOrigin.library
        || c.name == "CustomTensorBoardTask")) = true := by
  decide

/-- C2: in `CustomTensorBoardTask.run` with minibatch size 100 and a
non-empty test array `Xt`, the loop bound `-(-len(Xt) // minibatch_size)` is
the ceiling of `len(Xt)/100`, the minibatch slices
`Xt[mb*minibatch_size:(mb+1)*minibatch_size]` partition `Xt`, and the
vertically stacked row-wise predictions contain exactly one prediction row
for each row of `Xt`, none skipped and none duplicated. -/
theorem run_minibatches_cover_test_set (Xt : List Row) (g : Row → Row)
    (_hne : Xt ≠ []) :
    numBatches Xt.length = ⌈(Xt.length : ℚ) / 100⌉
    ∧ ((List.range (numBatches Xt.length).toNat).map
        (fun mb => pySlice Xt (mb * minibatch_size) ((mb + 1) * minibatch_size))).flatten
        = Xt
    ∧ predsOf (List.map g) Xt = Xt.map g
    ∧ (predsOf (List.map g) Xt).length = Xt.length := by
  refine ⟨numBatches_eq_ceil Xt.length, slices_partition Xt, predsOf_rowwise g Xt, ?_⟩
  rw [predsOf_rowwise, List.length_map]

/-- C2, witness: the coverage theorem applied to the concrete three-row test
array `Xt₀` and the identity prediction. -/
theorem run_minibatches_cover_test_set_witness :
    Xt₀ ≠ []
    ∧ (numBatches Xt₀.length = ⌈(Xt₀.length : ℚ) / 100⌉
       ∧ ((List.range (numBatches Xt₀.length).toNat).map
           (fun mb => pySlice Xt₀ (mb * minibatch_size) ((mb + 1) * minibatch_size))).flatten
           = Xt₀
       ∧ predsOf (List.map (fun r => r)) Xt₀ = Xt₀.map (fun r => r)
       ∧ (predsOf (List.map (fun r => r)) Xt₀).length = Xt₀.length) :=
  ⟨by decide, run_minibatches_cover_test_set Xt₀ (fun r => r) (by decide)⟩

/-- C3, counterexample: the claim that executing the notebooks produces no
externally visible effect beyond cell output is false — the tips-and-tricks
notebook's save example writes the file `/tmp/gpr.gpflow`, so not every
effect is cell output. -/
theorem notebook_execution_writes_files :
    Effect.fileWrite "/tmp/gpr.gpflow" ∈ allEffects
    ∧ (allEffects.all Effect.isCellOutput) = false := by
  decide

/-- C3, amended: besides cell output, executing the notebooks writes to
disk — checkpoints under `./monitor-saves`, TensorBoard events under
`./model-tensorboard`, and the file `/tmp/gpr.gpflow` (deleting any
pre-existing copy first) — and nothing else. -/
theorem effects_are_output_or_known_file_writes :
    allEffects.filter (fun e => !(e.isCellOutput))
      = [Effect.fileWrite "./monitor-saves",
         Effect.fileWrite "./model-tensorboard",
         Effect.fileDelete "/tmp/gpr.gpflow",
         Effect.fileWrite "/tmp/gpr.gpflow"] := by
  decide

/-- C4, counterexample: the claim that no notebook cell establishes or
checks an invariant over the objects it builds is false — the
tips-and-tricks notebook's parameter-sharing cell checks, via `assert`, the
object-identity invariant of the two shared lengthscales. -/
theorem notebook_checks_an_invariant :
    AssertStmt.mk "tips-and-tricks"
        "mo_kernels.kernels[0].lengthscales is mo_kernels.kernels[1].lengthscales"
      ∈ notebookAsserts
    ∧ notebookAsserts ≠ [] := by
  decide

/-- C4, amended: the notebooks establish and check exactly one invariant —
the lengthscales object-identity `assert` of the parameter-sharing example —
and no other notebook cell checks any. -/
theorem single_invariant_check_inventory :
    notebookAsserts.length = 1
    ∧ notebookAsserts
      = [⟨"tips-and-tricks",
          "mo_kernels.kernels[0].lengthscales is mo_kernels.kernels[1].lengthscales"⟩] := by
  decide

/-- C5: after the aliasing assignment inside `defer_build` and a subsequent
`compile()` (which preserves parameter-object references), kernel 0's
lengthscales is the identical object as kernel 1's: the notebook's `assert`
holds. -/
theorem shared_lengthscales_assert_holds :
    compileKernels (assignShared initLengthscales) 0
      = compileKernels (assignShared initLengthscales) 1 := by
  decide

/-- C6: every error or diagnostic message shown in the notebooks (for
example the optimizer convergence report) is emitted by the external
library or runtime, and no try/except, raise, or retry logic is authored in
the notebooks. -/
theorem diagnostics_all_from_library :
    (shownMessages.all (fun msg => !msg.isDiagnostic || msg.fromLibrary)) = true
    ∧ tryExceptBlocks = []
    ∧ raiseStmts = []
    ∧ retryLoops = [] := by
  decide

/-- C7: every save, load, checkpoint, restore, and event-log call of the
notebooks goes through an external `gpflow` library component, and the
notebooks define no persisted format of their own. -/
theorem persistence_goes_through_library :
    (persistCalls.all (fun c => gpflowComponents.contains c.component)) = true
    ∧ notebookDefinedFormats = []
    ∧ persistCalls.map (fun c => c.target)
      = ["./monitor-saves", "./model-tensorboard", "./monitor-saves",
         "/tmp/gpr.gpflow", "/tmp/gpr.gpflow", "/tmp/gpr.gpflow"] := by
  decide

/-- C8: whatever the model, the test inputs, and the test targets, the value
`CustomTensorBoardTask.run` feeds to the `test_nlpp` summary placeholder is
the constant `0.0`; in particular it is identical across any two runs. -/
theorem run_feeds_constant_zero_nlpp (sqrtF sqrtF' : ℚ → ℚ)
    (predict_y predict_y' : List Row → List Row) (Xt Yt Xt' Yt' : List Row) :
    (CustomTensorBoardTask.run sqrtF predict_y Xt Yt).test_nlpp = 0
    ∧ (CustomTensorBoardTask.run sqrtF predict_y Xt Yt).test_nlpp
      = (CustomTensorBoardTask.run sqrtF' predict_y' Xt' Yt').test_nlpp :=
  ⟨rfl, rfl⟩

/-- C9: the monitor is invoked in exactly two places, both times passed to
the external optimiser's `minimize` as its `step_callback` argument, and the
notebooks author no concurrency construct. -/
theorem monitor_only_used_as_step_callback :
    (monitorUses.all (fun u => u.passedAs == "step_callback")) = true
    ∧ monitorUses.length = 2
    ∧ concurrencyConstructs = [] := by
  decide

/-- C10: every source file of the repository is an nbformat-4 Jupyter
notebook document, and none is a plain Python module or script. -/
theorem all_repo_files_are_notebooks :
    (repoFiles.all (fun f => f.isNotebookDocument && f.nbformatMajor == 4
        && !f.isPythonModule)) = true
    ∧ repoFiles.length = 2 := by
  decide

end GPflowNotebooks
